import Mathlib

/-!
Verification of the gaucho-cmd remote-administration relay
(`src/discord-bot/discord-bot.service.ts`) against its specification.

The service is shallowly embedded: JS string operations are modelled on
`List Char` / `String`, the Discord interaction and the SSH transport are
modelled by explicit action traces and outcome-valued "world" functions,
and configuration is a record of `Option String` values (a missing key is
`none`, JS truthiness of a string is "non-empty").
-/

namespace GauchoCmd

/-! ## JS string primitives -/

/-- The dollar character, significant in JS replacement strings. -/
def dollarChar : Char := Char.ofNat 36

/-- The backtick character (code 96). -/
def backtickChar : Char := Char.ofNat 96

/-- The single-quote character (code 39). -/
def squoteChar : Char := Char.ofNat 39

/-- Index of the first occurrence of `pat` in the haystack, as for JS
`String.prototype.indexOf` with a string argument (counting characters). -/
def firstIndexOfAux (pat : List Char) : List Char → Nat → Option Nat
  | hay, i =>
    if pat.isPrefixOf hay then some i
    else
      match hay with
      | [] => none
      | _ :: t => firstIndexOfAux pat t (i + 1)

/-- First occurrence of `pat` in `hay` (character index), if any. -/
def firstIndexOf (hay pat : List Char) : Option Nat :=
  firstIndexOfAux pat hay 0

/-- JS `String.prototype.includes` with a string argument. -/
def containsSub (hay pat : List Char) : Bool :=
  (firstIndexOf hay pat).isSome

/-- ECMAScript `GetSubstitution` applied to a replacement string for a
string-valued search pattern: `$$` yields `$`, `$&` the matched text,
a dollar-backtick pair the portion before the match, a dollar-quote pair
the portion after; any other
`$`-sequence (including `$1`..`$9`, since a string pattern has no capture
groups) is literal. -/
def getSubstitution (matched before after : List Char) : List Char → List Char
  | [] => []
  | [c] => [c]
  | c :: d :: rest =>
    if c = dollarChar then
      if d = dollarChar then dollarChar :: getSubstitution matched before after rest
      else if d = Char.ofNat 38 then matched ++ getSubstitution matched before after rest
      else if d = backtickChar then before ++ getSubstitution matched before after rest
      else if d = squoteChar then after ++ getSubstitution matched before after rest
      else c :: getSubstitution matched before after (d :: rest)
    else c :: getSubstitution matched before after (d :: rest)

/-- JS `String.prototype.replace(pat, repl)` with string `pat` and string
`repl`: replaces the first occurrence of `pat`, with `GetSubstitution`
applied to `repl`; if `pat` does not occur, the string is unchanged. -/
def jsReplaceFirst (s pat repl : List Char) : List Char :=
  match firstIndexOf s pat with
  | none => s
  | some i =>
    s.take i ++ getSubstitution pat (s.take i) (s.drop (i + pat.length)) repl
      ++ s.drop (i + pat.length)

/-- Wrapper for `jsReplaceFirst` at the `String` level. -/
def jsReplaceFirstS (s pat repl : String) : String :=
  ⟨jsReplaceFirst s.data pat.data repl.data⟩

/-- Replacement of the first occurrence of `pat` by `repl` verbatim
(no substitution pattern processing). Modelled from the spec: "substitute
a placeholder token with a caller-supplied value", used to state what a
verbatim substitution would be. -/
def replaceFirstVerbatim (s pat repl : List Char) : List Char :=
  match firstIndexOf s pat with
  | none => s
  | some i => s.take i ++ repl ++ s.drop (i + pat.length)

/-- Wrapper for `replaceFirstVerbatim` at the `String` level. -/
def replaceFirstVerbatimS (s pat repl : String) : String :=
  ⟨replaceFirstVerbatim s.data pat.data repl.data⟩

/-- JS `s.slice(0, n)` for a non-negative bound: the first `n` characters. -/
def jsSlice (s : String) (n : Nat) : String :=
  ⟨s.data.take n⟩

/-- JS `a || b` on strings: `a` unless it is empty. -/
def jsOr (a b : String) : String :=
  if a = "" then b else a

/-- Replace every occurrence of the two-character sequence backslash-`n`
by a real newline, scanning left to right: the JS global regex replace
applied to `keyRaw` on line 197. -/
def unescapeNewlines : List Char → List Char
  | [] => []
  | [c] => [c]
  | c :: d :: rest =>
    if c = '\\' ∧ d = 'n' then '\n' :: unescapeNewlines rest
    else c :: unescapeNewlines (d :: rest)

/-! ## Configuration -/

/-- The string-keyed configuration surface read by the service. A key the
environment does not define is `none`. -/
structure Config where
  sshHost : Option String
  sshPort : Option String
  sshUser : Option String
  sshPrivateKeyB64 : Option String
  sshPrivateKey : Option String
  sshKeyPassphrase : Option String
  sshPassword : Option String
  sshHostFingerprint : Option String
  pzAdminCmd : Option String
  pzSendMsgCmd : Option String
  restartCmd : Option String
  statusCmd : Option String
  allowedRoleId : Option String
  allowedUserId : Option String
  deriving Repr

/-- JS truthiness of a possibly-missing string: `undefined` and `""` are
falsy, every other string truthy. -/
def truthy : Option String → Bool
  | none => false
  | some s => !s.isEmpty

/-- Normalisation `this.cfg.get(name) || undefined` of a falsy value to `none`
(used for `ALLOWED_ROLE_ID` / `ALLOWED_USER_ID` in the constructor and for
passphrase/password in `runRemote`). -/
def optTruthy (o : Option String) : Option String :=
  if truthy o then o else none

/-- Whether a string is empty or all whitespace, i.e. `!v || !v.trim()`
holds of it in JS (whitespace restricted to the ASCII set configuration
values use). -/
def jsBlank (s : String) : Bool :=
  s.data.all Char.isWhitespace

/-- Model of `private req(name)`: return the configured value, or throw
`` `${name} not set` `` when it is missing, empty, or whitespace-only. -/
def reqS (name : String) (o : Option String) : Except String String :=
  match o with
  | none => Except.error (name ++ " not set")
  | some v => if jsBlank v then Except.error (name ++ " not set") else Except.ok v

/-! ## Authorizer (`isAllowed`, lines 175-182) -/

/-- The identity data of an inbound Command Event that `isAllowed` reads:
the invoker user id, the member role list when the interaction has a
member carrying `roles` (`none` models an absent member or one with no
`roles` field), and the result of
`i.memberPermissions?.has(Administrator)` (`none` models a missing
`memberPermissions`). -/
structure Event where
  userId : String
  memberRoles : Option (List String)
  memberPermsAdmin : Option Bool
  deriving Repr, DecidableEq

/-- Role membership test of `isAllowed`: the member role list is present
(`i.member` truthy and carrying `roles`) and contains the role. -/
def roleMatch (role : String) (e : Event) : Bool :=
  match e.memberRoles with
  | some rs => rs.contains role
  | none => false

/-- Model of `private isAllowed(i)`: allowed user short-circuits, then allowed role
membership, then the platform Administrator permission, else deny.
`allowedUser` / `allowedRole` are the constructor-normalised fields
(`cfg.get(...) || undefined`). -/
def isAllowed (allowedUser allowedRole : Option String) (e : Event) : Bool :=
  if truthy allowedUser && (e.userId == allowedUser.getD "") then true
  else if truthy allowedRole && roleMatch (allowedRole.getD "") e then true
  else e.memberPermsAdmin.getD false

/-! ## Credential resolution and remote execution (`runRemote`, lines 184-235)

The ssh2 library is external: base64 decoding is abstracted by a
`b64decode` parameter, and the host-key verifier closure
`(hash) => hash === pinned` is embedded by the pin it captures, with its
application given by `hostVerifierAccepts`. -/

/-- The connection descriptor built by `runRemote` and passed to
`.connect(auth)`. `hostVerifier = some pin` embeds the closure
`(hash) => hash === pinned`; `none` means no `hostVerifier` property
(accept any host key). -/
structure Auth where
  host : String
  port : Nat
  username : String
  hostVerifier : Option String
  privateKey : Option String
  passphrase : Option String
  password : Option String
  deriving Repr, DecidableEq

/-- Application of the `hostVerifier` the credential carries: with a pin,
the presented fingerprint is accepted iff it equals the pin; with no
verifier, every host key is accepted. -/
def hostVerifierAccepts : Option String → String → Bool
  | some pinned, hash => hash == pinned
  | none, _ => true

/-- Port resolution `Number(SSH_PORT || 22)` on a decimal numeric string
(the only shape a port takes; no claim depends on this field). -/
def portOf (c : Config) : Nat :=
  match c.sshPort with
  | none => 22
  | some s => if s.isEmpty then 22 else s.toNat?.getD 0

/-- Lines 184-213 of `runRemote`: resolve host, port, username, key
material (base64 preferred, else raw with `\n` unescaping, else none),
optional passphrase/password, and the host-fingerprint pin; throw
`No SSH credentials: ...` when neither key nor password is configured.
`b64decode` abstracts the base64-to-utf8 Buffer decoding. -/
def resolveAuth (b64decode : String → String) (c : Config) : Except String Auth :=
  match reqS "SSH_HOST" c.sshHost with
  | Except.error e => Except.error e
  | Except.ok host =>
    match reqS "SSH_USER" c.sshUser with
    | Except.error e => Except.error e
    | Except.ok username =>
      let port := portOf c
      let passphrase := optTruthy c.sshKeyPassphrase
      let password := optTruthy c.sshPassword
      let privateKey : Option String :=
        if truthy c.sshPrivateKeyB64 then some (b64decode (c.sshPrivateKeyB64.getD ""))
        else if truthy c.sshPrivateKey then
          let keyRaw := c.sshPrivateKey.getD ""
          some (if containsSub keyRaw.data "\\n".data then ⟨unescapeNewlines keyRaw.data⟩
                else keyRaw)
        else none
      let pinned := (c.sshHostFingerprint.getD "")
      let hostVerifier : Option String := if pinned.isEmpty then none else some pinned
      match privateKey with
      | some k =>
        Except.ok { host, port, username, hostVerifier, privateKey := some k,
                    passphrase := passphrase, password := none }
      | none =>
        match password with
        | some pw =>
          Except.ok { host, port, username, hostVerifier, privateKey := none,
                      passphrase := none, password := some pw }
        | none =>
          Except.error "No SSH credentials: set SSH_PRIVATE_KEY_B64 or SSH_PRIVATE_KEY or SSH_PASSWORD"

/-- The outcome of one remote execution:
exit code (`null` already collapsed to 0 by `code ?? 0`), accumulated
stdout and accumulated stderr. -/
structure RunResult where
  code : Int
  stdout : String
  stderr : String
  deriving Repr, DecidableEq

/-- One chunk delivered on the stdout or stderr stream of the exec channel. -/
inductive Chunk
  | out (data : String)
  | err (data : String)
  deriving Repr, DecidableEq

/-- How the SSH transport behaves on one `runRemote` call: the connection
attempt errors (an `error` event before `ready`), or it becomes ready and
`conn.exec` errors, or the exec stream delivers chunks and closes with an
exit code (`none` models a `null` close code). -/
inductive ConnOutcome
  | connErr (msg : String)
  | execErr (msg : String)
  | stream (chunks : List Chunk) (closeCode : Option Int)
  deriving Repr, DecidableEq

/-- Accumulation `stdout += d.toString()` in arrival order. -/
def collectOut : List Chunk → String
  | [] => ""
  | Chunk.out d :: rest => d ++ collectOut rest
  | Chunk.err _ :: rest => collectOut rest

/-- Accumulation `stderr += d.toString()` in arrival order. -/
def collectErr : List Chunk → String
  | [] => ""
  | Chunk.out _ :: rest => collectErr rest
  | Chunk.err d :: rest => d ++ collectErr rest

/-- The observable outcome of one `runRemote` call: the settled promise,
how many times `.connect` was called, and how many times `conn.end()`
was called. -/
structure RemoteRun where
  result : Except String RunResult
  connectAttempts : Nat
  endCalls : Nat
  deriving Repr

/-- Lines 215-234: the promise executor, given the transport behavior.
On a connection error the code calls `reject` only (no `conn.end()`); on
an exec error it calls `conn.end()` then `reject`; on stream close it
calls `conn.end()` then resolves with `code ?? 0` and the accumulated
streams. -/
def runSession : ConnOutcome → RemoteRun
  | ConnOutcome.connErr e => ⟨Except.error e, 1, 0⟩
  | ConnOutcome.execErr e => ⟨Except.error e, 1, 1⟩
  | ConnOutcome.stream chunks closeCode =>
    ⟨Except.ok ⟨closeCode.getD 0, collectOut chunks, collectErr chunks⟩, 1, 1⟩

/-- Model of `private runRemote(cmd)`: resolve credentials (a failure there throws
before `.connect` is ever reached), then run the session, whose behavior
for the given command string the transport `world` determines. -/
def runRemote (b64decode : String → String) (c : Config)
    (world : String → ConnOutcome) (cmd : String) : RemoteRun :=
  match resolveAuth b64decode c with
  | Except.error e => ⟨Except.error e, 0, 0⟩
  | Except.ok _ => runSession (world cmd)

/-! ## Command Orchestrator (the interaction handlers, lines 85-172)

Each handler is embedded as the trace of its observable actions: Discord
replies/follow-ups, remote executions, and timed waits. The settled result
of an awaited `runRemote(cmd)` promise is abstracted as
`rrun : String → Except String RunResult` (`Except.error m` is a rejection
whose `e.message` is `m`, covering credential errors, connection errors and
exec errors alike); `remoteResult` ties it back to `runRemote`. -/

/-- One observable action of a handler. -/
inductive Action
  | reply (content : String) (ephemeral : Bool)
  | deferReply (ephemeral : Bool)
  | editReply (content : String)
  | followUp (content : String)
  | remoteExec (cmd : String)
  | wait (seconds : Nat)
  deriving Repr, DecidableEq

/-- The commands of the remote executions occurring in a trace. -/
def remoteExecCmds (trace : List Action) : List String :=
  trace.filterMap fun a =>
    match a with
    | Action.remoteExec c => some c
    | _ => none

/-- The settled result of a `runRemote` call under a transport `world`. -/
def remoteResult (b64decode : String → String) (c : Config)
    (world : String → ConnOutcome) : String → Except String RunResult :=
  fun cmd => (runRemote b64decode c world cmd).result

/-- Fallback output `(stderr || stdout || no-output-literal).slice(0, 1900)`. -/
def fallbackOut (r : RunResult) : String :=
  jsSlice (jsOr r.stderr (jsOr r.stdout "no output")) 1900

/-- The command string built by `sendAdminMessage` (line 95):
`this.req("PZ_SEND_MSG_CMD").replace("$1", msg)` — no quoting around the
message. -/
def sendMsgCommand (tmpl msg : String) : String :=
  jsReplaceFirstS tmpl "$1" msg

/-- The command string built by `runPZCmd` (line 86):
`` this.req("PZ_ADMIN_CMD").replace("$1", `"${cmd}"`) `` — the substituted
value is wrapped in double quotes. -/
def pzCmdString (tmpl cmd : String) : String :=
  jsReplaceFirstS tmpl "$1" ("\"" ++ cmd ++ "\"")

/-- Model of `private async sendAdminMessage(msg)` (lines 94-101): build the send
command, run it remotely, and throw
`` `Send Msg Failed. code=${code}\n${out}` `` when the exit code is
non-zero. Returns the trace of the call and the message of the thrown
error, if any. -/
def sendAdminMessageRun (cfg : Config) (rrun : String → Except String RunResult)
    (msg : String) : List Action × Option String :=
  match reqS "PZ_SEND_MSG_CMD" cfg.pzSendMsgCmd with
  | Except.error m => ([], some m)
  | Except.ok tmpl =>
    let cmd := sendMsgCommand tmpl msg
    ([Action.remoteExec cmd],
      match rrun cmd with
      | Except.error m => some m
      | Except.ok r =>
        if r.code = 0 then none
        else some ("Send Msg Failed. code=" ++ toString r.code ++ "\n" ++ fallbackOut r))

/-- Model of `private async handleAdminMsg(i)` (lines 104-113). The source performs
no `isAllowed` check here, and `this.sendAdminMessage(msg)` is not awaited:
the send is started (its remote execution happens) but its outcome never
reaches the surrounding try/catch, so the success follow-up
`Mensaje enviado: ...` is produced regardless. -/
def handleAdminMsg (cfg : Config) (rrun : String → Except String RunResult)
    (msg : String) : List Action :=
  let fire := sendAdminMessageRun cfg rrun msg
  Action.deferReply true :: fire.1 ++ [Action.followUp ("Mensaje enviado: " ++ msg)]

/-- First warning broadcast/progress text (lines 126-127). -/
def warn1Text : String := "ADVERTENCIA: El server se reiniciará en 2 minutos"

/-- Second warning broadcast/progress text (lines 131-132). -/
def warn2Text : String := "ADVERTENCIA: El server se reiniciará en 30 segundos"

/-- Third warning broadcast/progress text (lines 135-136). -/
def warn3Text : String := "ADVERTENCIA: El server se reiniciará en 10 segundos"

/-- One warning step of the non-forced restart:
`await this.sendAdminMessage(text)` (a thrown error propagates, aborting
the step), then mirror the text to the invoker and wait. -/
def warnStep (cfg : Config) (rrun : String → Except String RunResult)
    (text : String) (delaySec : Nat) : List Action × Option String :=
  match sendAdminMessageRun cfg rrun text with
  | (as, some m) => (as, some m)
  | (as, none) => (as ++ [Action.followUp text, Action.wait delaySec], none)

/-- The try-block of `handleRestart` (lines 124-147): the three warning
steps (90s, 20s, 10s) unless forced, then the configured `RESTART_CMD` is
run remotely and its outcome reported. Returns the trace and the message
of an error thrown out of the block, if any. -/
def restartTryBody (cfg : Config) (rrun : String → Except String RunResult)
    (force : Bool) : List Action × Option String :=
  let warn : List Action × Option String :=
    if force then ([], none)
    else
      match warnStep cfg rrun warn1Text 90 with
      | (as, some m) => (as, some m)
      | (as, none) =>
        match warnStep cfg rrun warn2Text 20 with
        | (bs, some m) => (as ++ bs, some m)
        | (bs, none) =>
          match warnStep cfg rrun warn3Text 10 with
          | (cs, r) => (as ++ bs ++ cs, r)
  match warn with
  | (as, some m) => (as, some m)
  | (as, none) =>
    match reqS "RESTART_CMD" cfg.restartCmd with
    | Except.error m => (as, some m)
    | Except.ok cmd =>
      match rrun cmd with
      | Except.error m => (as ++ [Action.remoteExec cmd], some m)
      | Except.ok r =>
        if r.code = 0 then
          (as ++ [Action.remoteExec cmd,
                  Action.followUp "Reinicio exitoso, esperar a que inicie..."], none)
        else
          (as ++ [Action.remoteExec cmd,
                  Action.followUp ("Restart command failed. code=" ++ toString r.code
                    ++ "\n" ++ fallbackOut r)], none)

/-- Model of `private async handleRestart(i, force)` (lines 115-151): deny unless
`isAllowed`, acknowledge, run the try-block, and on a thrown error report
`` `Command Failed: ${e.message}`.slice(0, 1900) ``. -/
def handleRestart (cfg : Config) (rrun : String → Except String RunResult)
    (e : Event) (force : Bool) : List Action :=
  if !(isAllowed (optTruthy cfg.allowedUserId) (optTruthy cfg.allowedRoleId) e) then
    [Action.reply "Not authorized." true]
  else
    Action.deferReply true :: Action.editReply "Comenzando reinicio..." ::
      (match restartTryBody cfg rrun force with
       | (as, some m) => as ++ [Action.followUp (jsSlice ("Command Failed: " ++ m) 1900)]
       | (as, none) => as)

/-- Model of `private async handleStatus(i)` (lines 153-172): deny unless
`isAllowed`, run `STATUS_CMD` remotely; on exit 0 edit the reply to
`Estado del server: ${stdout}` (no truncation), on non-zero exit report
the truncated fallback output, on a thrown error report
`` `Error: ${e.message}`.slice(0, 1900) ``. -/
def handleStatus (cfg : Config) (rrun : String → Except String RunResult)
    (e : Event) : List Action :=
  if !(isAllowed (optTruthy cfg.allowedUserId) (optTruthy cfg.allowedRoleId) e) then
    [Action.reply "Not authorized." true]
  else
    Action.deferReply true ::
      (match reqS "STATUS_CMD" cfg.statusCmd with
       | Except.error m => [Action.editReply (jsSlice ("Error: " ++ m) 1900)]
       | Except.ok cmd =>
         match rrun cmd with
         | Except.error m =>
           [Action.remoteExec cmd, Action.editReply (jsSlice ("Error: " ++ m) 1900)]
         | Except.ok r =>
           if r.code = 0 then
             [Action.remoteExec cmd, Action.editReply ("Estado del server: " ++ r.stdout)]
           else
             [Action.remoteExec cmd,
              Action.editReply ("Status command failed. code=" ++ toString r.code
                ++ "\n" ++ fallbackOut r)])

/-! ## Concrete fixtures for evaluations -/

/-- A concrete configuration: password auth, allowed user `U1`, all
command templates set. -/
def cfgA : Config :=
  { sshHost := some "h", sshPort := none, sshUser := some "u",
    sshPrivateKeyB64 := none, sshPrivateKey := none, sshKeyPassphrase := none,
    sshPassword := some "pw", sshHostFingerprint := none,
    pzAdminCmd := some "adm $1", pzSendMsgCmd := some "send $1",
    restartCmd := some "restart.sh", statusCmd := some "st.sh",
    allowedRoleId := none, allowedUserId := some "U1" }

/-- A concrete configuration with every credential configured (base64 key,
raw key, password) and a host-fingerprint pin. -/
def cfgAllCreds : Config :=
  { sshHost := some "h", sshPort := none, sshUser := some "u",
    sshPrivateKeyB64 := some "QUJD", sshPrivateKey := some "RAW\\nKEY",
    sshKeyPassphrase := none, sshPassword := some "pw",
    sshHostFingerprint := some "pin1",
    pzAdminCmd := some "adm $1", pzSendMsgCmd := some "send $1",
    restartCmd := some "restart.sh", statusCmd := some "st.sh",
    allowedRoleId := none, allowedUserId := some "U1" }

/-- The event of the configured allowed user, with no roles and no
administrator flag. -/
def eventU1 : Event := ⟨"U1", none, none⟩

/-- An event of a different user, with no member roles and no
administrator flag. -/
def eventU2 : Event := ⟨"U2", none, none⟩

/-- A transport under which every remote command succeeds silently. -/
def rrunOk : String → Except String RunResult := fun _ => Except.ok ⟨0, "", ""⟩

/-- A transport under which every remote call rejects with a connection
error. -/
def rrunConnRefused : String → Except String RunResult :=
  fun _ => Except.error "connect ECONNREFUSED"

/-- A transport under which the first warning broadcast command exits 1
with stderr `boom` and every other command succeeds. -/
def rrunWarn1Fails : String → Except String RunResult :=
  fun cmd =>
    if cmd = "send " ++ warn1Text then Except.ok ⟨1, "", "boom"⟩
    else Except.ok ⟨0, "", ""⟩

/-- A 1901-character stdout payload. -/
def longOut : String := ⟨List.replicate 1901 'a'⟩

/-- A transport under which every remote command exits 0 with the
1901-character stdout. -/
def rrunLongStdout : String → Except String RunResult :=
  fun _ => Except.ok ⟨0, longOut, ""⟩

/-- The connection descriptor `resolveAuth` produces for `cfgAllCreds`
under a base64 decoder returning `KEYDEC`. -/
def authAll : Auth := ⟨"h", 22, "u", some "pin1", some "KEYDEC", none, none⟩

/-! ## Helper lemmas -/

/-- A replacement string containing no dollar character is inserted
unchanged by `GetSubstitution`. -/
theorem getSubstitution_eq_self (matched before after : List Char)
    (l : List Char) (h : dollarChar ∉ l) :
    getSubstitution matched before after l = l := by
  induction l with
  | nil => rfl
  | cons c tl ih =>
    have hc : ¬(c = dollarChar) := fun hh => h (hh ▸ List.mem_cons_self c tl)
    have htl : dollarChar ∉ tl := fun hm => h (List.mem_cons_of_mem c hm)
    cases tl with
    | nil => rfl
    | cons d rest =>
      show getSubstitution matched before after (c :: d :: rest) = c :: d :: rest
      rw [getSubstitution, if_neg hc, ih htl]

/-- The `hostVerifier` carried by every successfully resolved credential
is the configured pin exactly when the pin is non-empty. -/
theorem resolveAuth_hostVerifier (b64 : String → String) (c : Config) (a : Auth)
    (ha : resolveAuth b64 c = Except.ok a) :
    a.hostVerifier =
      (if (c.sshHostFingerprint.getD "").isEmpty then none
       else some (c.sshHostFingerprint.getD "")) := by
  unfold resolveAuth at ha
  split at ha
  · cases ha
  split at ha
  · cases ha
  dsimp only at ha
  split at ha
  · cases ha
    simp
  · split at ha
    · cases ha
      simp
    · cases ha

/-- With a dollar-free replacement, the JS replace behaves as verbatim
first-occurrence substitution. -/
theorem jsReplaceFirst_eq_verbatim (s pat repl : List Char)
    (h : dollarChar ∉ repl) :
    jsReplaceFirst s pat repl = replaceFirstVerbatim s pat repl := by
  unfold jsReplaceFirst replaceFirstVerbatim
  cases firstIndexOf s pat with
  | none => rfl
  | some i =>
    dsimp only
    rw [getSubstitution_eq_self _ _ _ _ h]

/-! ## Claim theorems -/

/-- C5: for every event whose invoker user id equals the configured
allowed-user id (when one is configured, i.e. non-empty), `isAllowed`
returns true, regardless of the role list and the elevated-permission
flag. -/
theorem c5_matching_user_always_allowed (allowedUser allowedRole : Option String)
    (u : String) (e : Event) (hcfg : allowedUser = some u) (hne : u ≠ "")
    (hid : e.userId = u) :
    isAllowed allowedUser allowedRole e = true := by
  subst hcfg
  have hie : u.isEmpty = false := by
    cases hh : u.isEmpty
    · rfl
    · exact absurd ((String.isEmpty_iff u).mp hh) hne
  simp [isAllowed, truthy, hid, hie]

/-- Witness for C5: the allowed user is allowed even with a non-matching
role list and an explicit non-administrator flag. -/
theorem c5_matching_user_always_allowed_w :
    isAllowed (some "U1") (some "R1") ⟨"U1", some ["other"], some false⟩ = true :=
  c5_matching_user_always_allowed (some "U1") (some "R1") "U1"
    ⟨"U1", some ["other"], some false⟩ rfl (by decide) rfl

/-- C6: an event matching neither the allowed user nor the allowed role
and carrying no administrator flag is denied; an absent role list counts
as no match (it makes `roleMatch` false) rather than erroring. -/
theorem c6_no_signal_denied (allowedUser allowedRole : Option String) (e : Event)
    (hu : truthy allowedUser = true → e.userId ≠ allowedUser.getD "")
    (hr : truthy allowedRole = true → roleMatch (allowedRole.getD "") e = false)
    (hp : e.memberPermsAdmin.getD false = false) :
    isAllowed allowedUser allowedRole e = false := by
  have h1 : (truthy allowedUser && (e.userId == allowedUser.getD "")) = false := by
    cases htu : truthy allowedUser
    · rfl
    · rw [Bool.true_and]
      exact beq_eq_false_iff_ne.mpr (hu htu)
  have h2 : (truthy allowedRole && roleMatch (allowedRole.getD "") e) = false := by
    cases htr : truthy allowedRole
    · rfl
    · rw [Bool.true_and]
      exact hr htr
  simp [isAllowed, h1, h2, hp]

/-- Witness for C6: user `U2` with an absent member role list and no
permission data is denied under a policy allowing `U1` or role `R1`. -/
theorem c6_no_signal_denied_w :
    isAllowed (some "U1") (some "R1") eventU2 = false :=
  c6_no_signal_denied (some "U1") (some "R1") eventU2
    (fun _ => by decide) (fun _ => by decide) rfl

/-- C8 counterexample: when the connection attempt itself fails (the
`error` event fires and the promise rejects), the source never calls
`conn.end()`, so the session is not released exactly once on that exit
path. -/
theorem c8_counterexample :
    (runSession (ConnOutcome.connErr "connect ECONNREFUSED")).endCalls = 0 ∧
    (runSession (ConnOutcome.connErr "connect ECONNREFUSED")).endCalls ≠ 1 := by
  exact ⟨rfl, by decide⟩

/-- C8 amended: `conn.end()` is called exactly once on every path that
reaches the ready connection — exec-request error, stream close with exit
code zero, non-zero, or null — while on a connection-attempt failure the
code calls `reject` alone and performs no `end` call. -/
theorem c8_session_release (m : String) (chunks : List Chunk)
    (closeCode : Option Int) :
    (runSession (ConnOutcome.execErr m)).endCalls = 1 ∧
    (runSession (ConnOutcome.stream chunks closeCode)).endCalls = 1 ∧
    (runSession (ConnOutcome.connErr m)).endCalls = 0 :=
  ⟨rfl, rfl, rfl⟩

/-- C1: the admin-message handler performs no authorization check — the
event `eventU2` is denied by `isAllowed` under the `cfgA` policy, yet
`handleAdminMsg` (which never consults `isAllowed`) still executes the
broadcast command remotely for it, so a remote session is opened and a
remote command executed without the Authorizer ever returning true. -/
theorem c1_admin_msg_skips_authorization :
    isAllowed (optTruthy cfgA.allowedUserId) (optTruthy cfgA.allowedRoleId)
      eventU2 = false ∧
    handleAdminMsg cfgA rrunOk "hola"
      = [Action.deferReply true, Action.remoteExec "send hola",
         Action.followUp "Mensaje enviado: hola"] ∧
    remoteExecCmds (handleAdminMsg cfgA rrunOk "hola") = ["send hola"] :=
  ⟨rfl, rfl, rfl⟩

/-- C3: because `this.sendAdminMessage(msg)` is not awaited, a rejected
remote call (here a connection failure) never reaches the try/catch of
`handleAdminMsg`: the terminal follow-up is the success message
`Mensaje enviado: hola`, not a failure message carrying the error
description — even though the awaited send itself would have surfaced the
error (second conjunct). -/
theorem c3_admin_msg_error_reports_success :
    handleAdminMsg cfgA rrunConnRefused "hola"
      = [Action.deferReply true, Action.remoteExec "send hola",
         Action.followUp "Mensaje enviado: hola"] ∧
    (sendAdminMessageRun cfgA rrunConnRefused "hola").2
      = some "connect ECONNREFUSED" :=
  ⟨rfl, rfl⟩

/-- C4 counterexample: on the status success path the stdout is embedded
in the user-facing message with no truncation — with a 1901-character
stdout the surfaced message is 1920 characters long, exceeding the
1900-character bound the claim asserts for every surfaced result. -/
theorem c4_counterexample :
    handleStatus cfgA rrunLongStdout eventU1
      = [Action.deferReply true, Action.remoteExec "st.sh",
         Action.editReply ("Estado del server: " ++ longOut)] ∧
    1900 < ("Estado del server: " ++ longOut).length := by
  refine ⟨rfl, ?_⟩
  have h1 : longOut.data.length = 1901 := List.length_replicate 1901 'a'
  show 1900 < ("Estado del server: " ++ longOut).data.length
  rw [String.data_append, List.length_append, h1]
  omega

/-- C4 amended: truncation `slice(0, 1900)` never yields more than 1900
characters, is a no-op (never throws) on strings within the bound, and
every failure output surfaced through `fallbackOut` is so truncated; the
status success path, however, embeds stdout verbatim (see the
counterexample). -/
theorem c4_truncation_bound :
    (∀ s : String, (jsSlice s 1900).length ≤ 1900) ∧
    (∀ s : String, s.length ≤ 1900 → jsSlice s 1900 = s) ∧
    (∀ r : RunResult, (fallbackOut r).length ≤ 1900) := by
  have hlen : ∀ s : String, (jsSlice s 1900).length ≤ 1900 := by
    intro s
    show (s.data.take 1900).length ≤ 1900
    rw [List.length_take]
    exact Nat.min_le_left _ _
  refine ⟨hlen, fun s h => ?_, fun r => hlen _⟩
  show (⟨s.data.take 1900⟩ : String) = s
  rw [List.take_of_length_le h]

/-- Witness for C4 amended: truncating a short string is a no-op. -/
theorem c4_truncation_bound_w : jsSlice "corto" 1900 = "corto" :=
  c4_truncation_bound.2.1 "corto" (by decide)

/-- C10 counterexample: the broadcast command builder does not insert the
message verbatim — JS replacement-pattern substitution applies, so the
message consisting of two dollar signs is inserted as a single dollar,
unlike the verbatim substitution the claim describes. -/
theorem c10_counterexample :
    sendMsgCommand "say $1" "$$" = "say $" ∧
    replaceFirstVerbatimS "say $1" "$1" "$$" = "say $$" ∧
    sendMsgCommand "say $1" "$$" ≠ replaceFirstVerbatimS "say $1" "$1" "$$" := by
  refine ⟨rfl, rfl, ?_⟩
  decide

/-- C10 amended: for a message free of the dollar character the broadcast
builder replaces exactly the first occurrence of `$1` in the template with
the message verbatim and unquoted, while the generic admin-command builder
(`runPZCmd`) substitutes its dollar-free value wrapped in double quotes. -/
theorem c10_first_occurrence_substitution (tmpl m cmd2 : String)
    (hm : dollarChar ∉ m.data) (hc : dollarChar ∉ cmd2.data) :
    sendMsgCommand tmpl m = replaceFirstVerbatimS tmpl "$1" m ∧
    pzCmdString tmpl cmd2
      = replaceFirstVerbatimS tmpl "$1" ("\"" ++ cmd2 ++ "\"") := by
  constructor
  · show (⟨jsReplaceFirst tmpl.data "$1".data m.data⟩ : String) = _
    rw [jsReplaceFirst_eq_verbatim _ _ _ hm]
    rfl
  · have hq : dollarChar ∉ ("\"" ++ cmd2 ++ "\"" : String).data := by
      rw [String.data_append, String.data_append]
      intro hmem
      rcases List.mem_append.mp hmem with h1 | h2
      · rcases List.mem_append.mp h1 with h3 | h4
        · simp [dollarChar] at h3
        · exact hc h4
      · simp [dollarChar] at h2
    show (⟨jsReplaceFirst tmpl.data "$1".data ("\"" ++ cmd2 ++ "\"" : String).data⟩ : String) = _
    rw [jsReplaceFirst_eq_verbatim _ _ _ hq]
    rfl

/-- Witness for C10 amended: with a dollar-free message only the first of
two placeholders is replaced, verbatim. -/
theorem c10_first_occurrence_substitution_w :
    sendMsgCommand "say $1 $1" "hola" = replaceFirstVerbatimS "say $1 $1" "$1" "hola" ∧
    replaceFirstVerbatimS "say $1 $1" "$1" "hola" = "say hola $1" :=
  ⟨(c10_first_occurrence_substitution "say $1 $1" "hola" "x" (by decide) (by decide)).1,
   by decide⟩

/-- C9: when a host-fingerprint pin is configured (non-empty), every
successfully resolved credential carries a verifier accepting a presented
fingerprint iff it equals the pin; with no pin configured the credential
carries no verifier and every host key is accepted. -/
theorem c9_host_fingerprint_pinning (b64 : String → String) (c : Config) (a : Auth)
    (ha : resolveAuth b64 c = Except.ok a) :
    (truthy c.sshHostFingerprint = true →
      a.hostVerifier = some (c.sshHostFingerprint.getD "") ∧
      ∀ fp, hostVerifierAccepts a.hostVerifier fp = true
        ↔ fp = c.sshHostFingerprint.getD "")
    ∧ (truthy c.sshHostFingerprint = false →
      a.hostVerifier = none ∧
      ∀ fp, hostVerifierAccepts a.hostVerifier fp = true) := by
  have hv := resolveAuth_hostVerifier b64 c a ha
  constructor
  · intro ht
    have hie : (c.sshHostFingerprint.getD "").isEmpty = false := by
      cases hcf : c.sshHostFingerprint with
      | none => rw [hcf] at ht; exact absurd ht (by decide)
      | some str =>
        rw [hcf] at ht
        simpa [truthy] using ht
    have hv2 : a.hostVerifier = some (c.sshHostFingerprint.getD "") := by
      rw [hv, if_neg (by simp [hie])]
    refine ⟨hv2, fun fp => ?_⟩
    rw [hv2]
    show (fp == c.sshHostFingerprint.getD "") = true ↔ _
    exact beq_iff_eq
  · intro hf
    have hie : (c.sshHostFingerprint.getD "").isEmpty = true := by
      cases hcf : c.sshHostFingerprint with
      | none => decide
      | some str =>
        rw [hcf] at hf
        simpa [truthy] using hf
    have hv2 : a.hostVerifier = none := by rw [hv, if_pos hie]
    exact ⟨hv2, fun fp => by rw [hv2]; rfl⟩

/-- Witness for C9: under `cfgAllCreds` (pin `pin1`) the resolved
credential carries the pin, and a mismatching fingerprint is accepted only
if it equals the pin. -/
theorem c9_host_fingerprint_pinning_w :
    authAll.hostVerifier = some "pin1" ∧
    (hostVerifierAccepts authAll.hostVerifier "mallory" = true ↔ "mallory" = "pin1") := by
  have h := (c9_host_fingerprint_pinning (fun _ => "KEYDEC") cfgAllCreds authAll rfl).1
    (by decide)
  exact ⟨h.1, h.2 "mallory"⟩

/-- C7: credential resolution prefers the base64 key (decoded), else the
raw key (with backslash-n unescaping, unchanged when it contains none),
else the password; with none of the three configured it fails with the
no-credentials error and no connection is ever attempted. -/
theorem c7_credential_resolution_order (b64 : String → String) (c : Config)
    (hostV userV : String)
    (hh : reqS "SSH_HOST" c.sshHost = Except.ok hostV)
    (hu : reqS "SSH_USER" c.sshUser = Except.ok userV) :
    (truthy c.sshPrivateKeyB64 = true →
      ∃ a, resolveAuth b64 c = Except.ok a ∧
        a.privateKey = some (b64 (c.sshPrivateKeyB64.getD "")) ∧ a.password = none)
    ∧ (truthy c.sshPrivateKeyB64 = false → truthy c.sshPrivateKey = true →
      ∃ a, resolveAuth b64 c = Except.ok a ∧
        a.privateKey = some
          (if containsSub (c.sshPrivateKey.getD "").data "\\n".data
           then (⟨unescapeNewlines (c.sshPrivateKey.getD "").data⟩ : String)
           else c.sshPrivateKey.getD "") ∧
        a.password = none)
    ∧ (truthy c.sshPrivateKeyB64 = false → truthy c.sshPrivateKey = false →
        truthy c.sshPassword = true →
      ∃ a, resolveAuth b64 c = Except.ok a ∧
        a.privateKey = none ∧ a.password = c.sshPassword)
    ∧ (truthy c.sshPrivateKeyB64 = false → truthy c.sshPrivateKey = false →
        truthy c.sshPassword = false →
      resolveAuth b64 c = Except.error
          "No SSH credentials: set SSH_PRIVATE_KEY_B64 or SSH_PRIVATE_KEY or SSH_PASSWORD"
        ∧ ∀ world cmd, (runRemote b64 c world cmd).connectAttempts = 0) := by
  refine ⟨?_, ?_, ?_, ?_⟩
  · intro hb
    have hEq : resolveAuth b64 c = Except.ok
        { host := hostV, port := portOf c, username := userV,
          hostVerifier := if (c.sshHostFingerprint.getD "").isEmpty then none
            else some (c.sshHostFingerprint.getD ""),
          privateKey := some (b64 (c.sshPrivateKeyB64.getD "")),
          passphrase := optTruthy c.sshKeyPassphrase, password := none } := by
      unfold resolveAuth
      rw [hh, hu]
      dsimp only
      rw [if_pos hb]
    exact ⟨_, hEq, rfl, rfl⟩
  · intro hb hraw
    have hEq : resolveAuth b64 c = Except.ok
        { host := hostV, port := portOf c, username := userV,
          hostVerifier := if (c.sshHostFingerprint.getD "").isEmpty then none
            else some (c.sshHostFingerprint.getD ""),
          privateKey := some
            (if containsSub (c.sshPrivateKey.getD "").data "\\n".data
             then (⟨unescapeNewlines (c.sshPrivateKey.getD "").data⟩ : String)
             else c.sshPrivateKey.getD ""),
          passphrase := optTruthy c.sshKeyPassphrase, password := none } := by
      unfold resolveAuth
      rw [hh, hu]
      dsimp only
      rw [if_neg (by simp [hb]), if_pos hraw]
    exact ⟨_, hEq, rfl, rfl⟩
  · intro hb hraw hpw
    cases hps : c.sshPassword with
    | none => rw [hps] at hpw; exact absurd hpw (by decide)
    | some pw =>
      have htp : truthy (some pw) = true := by rw [← hps]; exact hpw
      have hEq : resolveAuth b64 c = Except.ok
          { host := hostV, port := portOf c, username := userV,
            hostVerifier := if (c.sshHostFingerprint.getD "").isEmpty then none
              else some (c.sshHostFingerprint.getD ""),
            privateKey := none, passphrase := none, password := some pw } := by
        unfold resolveAuth
        rw [hh, hu]
        dsimp only
        rw [if_neg (by simp [hb]), if_neg (by simp [hraw]), hps]
        simp [optTruthy, htp]
      exact ⟨_, hEq, rfl, hps ▸ rfl⟩
  · intro hb hraw hpw
    have hopt : optTruthy c.sshPassword = none := by simp [optTruthy, hpw]
    have hErr : resolveAuth b64 c = Except.error
        "No SSH credentials: set SSH_PRIVATE_KEY_B64 or SSH_PRIVATE_KEY or SSH_PASSWORD" := by
      unfold resolveAuth
      rw [hh, hu]
      dsimp only
      rw [if_neg (by simp [hb]), if_neg (by simp [hraw]), hopt]
    refine ⟨hErr, fun world cmd => ?_⟩
    unfold runRemote
    rw [hErr]

/-- Witness for C7: with all three credentials configured, the base64 key
wins (decoded) and no password is placed on the connection descriptor. -/
theorem c7_credential_resolution_order_w :
    ∃ a, resolveAuth (fun _ => "KEYDEC") cfgAllCreds = Except.ok a ∧
      a.privateKey = some "KEYDEC" ∧ a.password = none :=
  (c7_credential_resolution_order (fun _ => "KEYDEC") cfgAllCreds "h" "u" rfl rfl).1
    (by decide)

/-- C2 counterexample: when the first warning broadcast exits non-zero,
`sendAdminMessage` throws, the surrounding try/catch aborts the sequence
with `Command Failed: ...`, and neither the remaining broadcasts, nor the
progress messages, nor the restart execution happen — exactly one
broadcast attempt occurs, refuting the regardless-of-failure part of the
claim. -/
theorem c2_counterexample :
    handleRestart cfgA rrunWarn1Fails eventU1 false
      = [Action.deferReply true, Action.editReply "Comenzando reinicio...",
         Action.remoteExec ("send " ++ warn1Text),
         Action.followUp "Command Failed: Send Msg Failed. code=1\nboom"] ∧
    remoteExecCmds (handleRestart cfgA rrunWarn1Fails eventU1 false)
      = ["send " ++ warn1Text] :=
  ⟨rfl, rfl⟩

/-- C2 amended: for every authorized non-forced restart whose three
warning broadcasts all succeed (exit 0), the trace performs exactly three
broadcast attempts and three mirrored progress messages in the fixed order
wait-90s, wait-20s, wait-10s before the restart execution, and no other
remote command; a failed broadcast instead aborts the sequence (see the
counterexample). -/
theorem c2_restart_warning_sequence (cfg : Config)
    (rrun : String → Except String RunResult)
    (e : Event) (tmpl rcmd : String) (r1 r2 r3 : RunResult)
    (hAuth : isAllowed (optTruthy cfg.allowedUserId) (optTruthy cfg.allowedRoleId) e
      = true)
    (hTmpl : reqS "PZ_SEND_MSG_CMD" cfg.pzSendMsgCmd = Except.ok tmpl)
    (hRcmd : reqS "RESTART_CMD" cfg.restartCmd = Except.ok rcmd)
    (h1 : rrun (sendMsgCommand tmpl warn1Text) = Except.ok r1) (h1c : r1.code = 0)
    (h2 : rrun (sendMsgCommand tmpl warn2Text) = Except.ok r2) (h2c : r2.code = 0)
    (h3 : rrun (sendMsgCommand tmpl warn3Text) = Except.ok r3) (h3c : r3.code = 0) :
    ∃ tail : List Action,
      handleRestart cfg rrun e false
        = [Action.deferReply true, Action.editReply "Comenzando reinicio...",
           Action.remoteExec (sendMsgCommand tmpl warn1Text), Action.followUp warn1Text,
           Action.wait 90,
           Action.remoteExec (sendMsgCommand tmpl warn2Text), Action.followUp warn2Text,
           Action.wait 20,
           Action.remoteExec (sendMsgCommand tmpl warn3Text), Action.followUp warn3Text,
           Action.wait 10,
           Action.remoteExec rcmd] ++ tail
      ∧ remoteExecCmds (handleRestart cfg rrun e false)
        = [sendMsgCommand tmpl warn1Text, sendMsgCommand tmpl warn2Text,
           sendMsgCommand tmpl warn3Text, rcmd] := by
  have hstep1 : warnStep cfg rrun warn1Text 90
      = ([Action.remoteExec (sendMsgCommand tmpl warn1Text), Action.followUp warn1Text,
          Action.wait 90], none) := by
    simp [warnStep, sendAdminMessageRun, hTmpl, h1, h1c]
  have hstep2 : warnStep cfg rrun warn2Text 20
      = ([Action.remoteExec (sendMsgCommand tmpl warn2Text), Action.followUp warn2Text,
          Action.wait 20], none) := by
    simp [warnStep, sendAdminMessageRun, hTmpl, h2, h2c]
  have hstep3 : warnStep cfg rrun warn3Text 10
      = ([Action.remoteExec (sendMsgCommand tmpl warn3Text), Action.followUp warn3Text,
          Action.wait 10], none) := by
    simp [warnStep, sendAdminMessageRun, hTmpl, h3, h3c]
  cases hrr : rrun rcmd with
  | error m =>
    refine ⟨[Action.followUp (jsSlice ("Command Failed: " ++ m) 1900)], ?_, ?_⟩
    · simp [handleRestart, restartTryBody, hAuth, hstep1, hstep2, hstep3, hRcmd, hrr]
    · simp [remoteExecCmds, handleRestart, restartTryBody, hAuth, hstep1, hstep2, hstep3,
        hRcmd, hrr]
  | ok rr =>
    by_cases hc : rr.code = 0
    · refine ⟨[Action.followUp "Reinicio exitoso, esperar a que inicie..."], ?_, ?_⟩
      · simp [handleRestart, restartTryBody, hAuth, hstep1, hstep2, hstep3, hRcmd, hrr, hc]
      · simp [remoteExecCmds, handleRestart, restartTryBody, hAuth, hstep1, hstep2, hstep3,
          hRcmd, hrr, hc]
    · refine ⟨[Action.followUp ("Restart command failed. code=" ++ toString rr.code
          ++ "\n" ++ fallbackOut rr)], ?_, ?_⟩
      · simp [handleRestart, restartTryBody, hAuth, hstep1, hstep2, hstep3, hRcmd, hrr, hc]
      · simp [remoteExecCmds, handleRestart, restartTryBody, hAuth, hstep1, hstep2, hstep3,
          hRcmd, hrr, hc]

/-- Witness for C2 amended: under `cfgA` with an all-success transport the
full 13-action trace is produced, with exactly the three broadcast
commands and the restart command executed remotely. -/
theorem c2_restart_warning_sequence_w :
    ∃ tail : List Action,
      handleRestart cfgA rrunOk eventU1 false
        = [Action.deferReply true, Action.editReply "Comenzando reinicio...",
           Action.remoteExec (sendMsgCommand "send $1" warn1Text), Action.followUp warn1Text,
           Action.wait 90,
           Action.remoteExec (sendMsgCommand "send $1" warn2Text), Action.followUp warn2Text,
           Action.wait 20,
           Action.remoteExec (sendMsgCommand "send $1" warn3Text), Action.followUp warn3Text,
           Action.wait 10,
           Action.remoteExec "restart.sh"] ++ tail
      ∧ remoteExecCmds (handleRestart cfgA rrunOk eventU1 false)
        = [sendMsgCommand "send $1" warn1Text, sendMsgCommand "send $1" warn2Text,
           sendMsgCommand "send $1" warn3Text, "restart.sh"] :=
  c2_restart_warning_sequence cfgA rrunOk eventU1 "send $1" "restart.sh"
    ⟨0, "", ""⟩ ⟨0, "", ""⟩ ⟨0, "", ""⟩
    (by decide) rfl rfl rfl rfl rfl rfl rfl rfl

end GauchoCmd
